import Mathlib

/-!
Verification development for the televideditor bot (src/televideditor.py).

The Python source is shallowly embedded: the composition planner (lines
401-404), the ffmpeg filter-graph construction (lines 406-448), the session
store handlers (handle_media, handle_fade_choice, cleanup_stale_sessions) and
the isolated render pipeline (isolated_video_processing_task) become pure Lean
functions.  Python floats are modelled as exact rationals, Python `int()` as
truncation toward zero, and the effects of external commands (ffprobe, ffmpeg,
the upload) as an explicit environment of outcomes.
-/

/- Constants from lines 33-52 of televideditor.py. -/

def COMP_WIDTH : ℤ := 1080

def COMP_HEIGHT : ℤ := 1920

def FPS : ℤ := 30

def IMAGE_DURATION : ℚ := 8

def FADE_IN_DURATION : ℚ := 6

def MEDIA_Y_OFFSET : ℚ := 100

def SESSION_TIMEOUT : ℚ := 1800

/-- Sweep period of cleanup_stale_sessions: `time.sleep(300)` (line 235). -/
def CLEANUP_INTERVAL : ℚ := 300

/-- Hard wall-clock timeout of the ffmpeg invocation: `timeout=300` (line 451). -/
def RENDER_TIMEOUT : ℚ := 300

def BACKGROUND_COLOR : String := "black"

/-- Python `int()` applied to a rational: truncation toward zero. -/
def pyInt (q : ℚ) : ℤ := if 0 ≤ q then ⌊q⌋ else ⌈q⌉

/- Composition planner: lines 401-404 of televideditor.py.

    scale_ratio = COMP_WIDTH / media_w
    scaled_media_h = int(media_h * scale_ratio)
    media_y_pos = (COMP_HEIGHT / 2 - scaled_media_h / 2) + MEDIA_Y_OFFSET
    caption_y_pos = media_y_pos - caption_height + 1
-/

structure CompositionPlan where
  scaleFactor : ℚ
  scaledMediaH : ℤ
  mediaYPos : ℚ
  captionYPos : ℚ
deriving DecidableEq

/-- The geometry computed at lines 401-404 (field `scaleFactor` is the
source's `scale_ratio`). -/
def computePlan (media_w media_h : ℤ) (caption_height : ℚ) : CompositionPlan :=
  let scaleF : ℚ := (COMP_WIDTH : ℚ) / (media_w : ℚ)
  let scaledH : ℤ := pyInt ((media_h : ℚ) * scaleF)
  let mediaY : ℚ := ((COMP_HEIGHT : ℚ) / 2 - (scaledH : ℚ) / 2) + MEDIA_Y_OFFSET
  let captionY : ℚ := mediaY - caption_height + 1
  ⟨scaleF, scaledH, mediaY, captionY⟩

/- Filter-graph builder: lines 406-448 of televideditor.py.  Each element of
the Python `filter_parts` list (an ffmpeg filter-chain string) is embedded as
a `Stage`: the labels it consumes, the ordered filter chain, and the label it
produces. -/

inductive FilterOp
  /-- `scale=1080:-1` -/
  | scale (w : ℤ) (h : ℤ)
  /-- `setpts=PTS-STARTPTS` -/
  | setpts
  /-- `color=c=<c>:s=<w>x<h>:d=<d>` -/
  | color (c : String) (w : ℤ) (h : ℤ) (d : ℚ)
  /-- `format=<pixfmt>` -/
  | format (pixfmt : String)
  /-- `fade=t=<t>:st=<st>:d=<d>` -/
  | fade (t : String) (st : ℚ) (d : ℚ)
  /-- `overlay=<x>:<y>` with numeric coordinates -/
  | overlayXY (x : ℚ) (y : ℚ)
  /-- `overlay=(W-w)/2:<y>` (horizontally centered) -/
  | overlayCentered (y : ℚ)
  /-- `asetpts=PTS-STARTPTS` -/
  | asetpts
deriving DecidableEq

structure Stage where
  inputs : List String
  chain : List FilterOp
  output : String
deriving DecidableEq

/-- Whether a filter op is a fade filter. -/
def isFadeOp : FilterOp → Bool
  | .fade _ _ _ => true
  | _ => false

/-- Line 418: `[1:v]scale=1080:-1,setpts=PTS-STARTPTS[scaled_media]`. -/
def scaledMediaStage : Stage :=
  ⟨["1:v"], [.scale COMP_WIDTH (-1), .setpts], "scaled_media"⟩

/-- Line 424: `color=c=black:s=1080x{h+1}:d={dur},format=rgba,fade=t=out:st=0:d=6[fade_layer]`. -/
def fadeLayerStage (scaled_media_h : ℤ) (final_duration : ℚ) : Stage :=
  ⟨[], [.color "black" COMP_WIDTH (scaled_media_h + 1) final_duration,
        .format "rgba", .fade "out" 0 FADE_IN_DURATION], "fade_layer"⟩

/-- Line 425: `[scaled_media][fade_layer]overlay=0:0[media_with_fade]`. -/
def fadeOverlayStage : Stage :=
  ⟨["scaled_media", "fade_layer"], [.overlayXY 0 0], "media_with_fade"⟩

/-- The stages accumulated in `filter_parts` before the final two extends
(lines 417-427): the scale stage, plus the two fade stages when requested. -/
def mediaStages (apply_fade : Bool) (scaled_media_h : ℤ) (final_duration : ℚ) :
    List Stage :=
  [scaledMediaStage] ++
    (if apply_fade then [fadeLayerStage scaled_media_h final_duration, fadeOverlayStage]
     else [])

/-- The Python `media_layer` variable (lines 421, 427). -/
def mediaLayerLabel (apply_fade : Bool) : String :=
  if apply_fade then "media_with_fade" else "scaled_media"

/-- Lines 429-432: the background overlay and caption overlay stages,
parameterized by the label currently held in `media_layer`. -/
def finalStages (media_layer : String) (media_y_pos caption_y_pos : ℚ) :
    List Stage :=
  [⟨["0:v", media_layer], [.overlayCentered media_y_pos], "bg_with_media"⟩,
   ⟨["bg_with_media", "2:v"], [.overlayCentered caption_y_pos], "final_v"⟩]

/-- The full `filter_parts` list built at lines 417-432. -/
def filterParts (apply_fade : Bool) (scaled_media_h : ℤ)
    (final_duration media_y_pos caption_y_pos : ℚ) : List Stage :=
  mediaStages apply_fade scaled_media_h final_duration ++
    finalStages (mediaLayerLabel apply_fade) media_y_pos caption_y_pos

inductive MediaType
  | image
  | video
deriving DecidableEq

/-- The sound stage appended at line 438 for video media:
`[1:a]asetpts=PTS-STARTPTS[final_a]`. -/
def soundStage : Stage := ⟨["1:a"], [.asetpts], "final_a"⟩

/-- The whole filter_complex contents (lines 417-439): `filter_parts` plus,
for video media, the sound chain. -/
def fullFilterGraph (media_type : MediaType) (apply_fade : Bool)
    (scaled_media_h : ℤ) (final_duration media_y_pos caption_y_pos : ℚ) :
    List Stage :=
  filterParts apply_fade scaled_media_h final_duration media_y_pos caption_y_pos ++
    (match media_type with
     | .video => [soundStage]
     | .image => [])

/- The ffmpeg command inputs (lines 407-413) and output maps (lines 436-439). -/

inductive InputSpec
  /-- `-f lavfi -i color=c=<c>:s=<w>x<h>:d=<d>` -/
  | lavfiColor (c : String) (w h : ℤ) (d : ℚ)
  /-- `-i media_path`, preceded for images by `-loop 1 -t <dur>` -/
  | mediaFile (loop : Bool) (t : Option ℚ)
  /-- `-i caption_image_path` -/
  | captionFile
deriving DecidableEq

/-- Lines 407-413: input 0 is the lavfi background color source, input 1 the
media file (looped with a duration bound for images), input 2 the caption. -/
def buildInputs (media_type : MediaType) (final_duration : ℚ) : List InputSpec :=
  [.lavfiColor BACKGROUND_COLOR COMP_WIDTH COMP_HEIGHT final_duration] ++
    (match media_type with
     | .image => [.mediaFile true (some final_duration)]
     | .video => [.mediaFile false none]) ++
    [.captionFile]

/-- Lines 436-439: always map `[final_v]`; additionally `[final_a]` for video. -/
def buildMaps (media_type : MediaType) : List String :=
  ["final_v"] ++
    (match media_type with
     | .video => ["final_a"]
     | .image => [])

structure FFCommand where
  inputs : List InputSpec
  graph : List Stage
  maps : List String
deriving DecidableEq

/-- The full structured ffmpeg invocation assembled at lines 406-448. -/
def buildCommand (media_type : MediaType) (apply_fade : Bool)
    (scaled_media_h : ℤ) (final_duration media_y_pos caption_y_pos : ℚ) :
    FFCommand :=
  ⟨buildInputs media_type final_duration,
   fullFilterGraph media_type apply_fade scaled_media_h final_duration
     media_y_pos caption_y_pos,
   buildMaps media_type⟩

/- Session store: the `user_data` dict guarded by `user_data_lock`
(lines 56-57), with the handlers' state values (lines 254-334). -/

inductive SState
  | downloading
  | awaitingCaption
  | awaitingFadeChoice
  | processing
deriving DecidableEq

/-- One entry of the `user_data` dict. -/
structure Session where
  state : SState
  timestamp : ℚ
  mediaPath : Option String
  mediaType : Option MediaType
  captionText : Option String
deriving DecidableEq

/-- The `user_data` dict, embedded as an association list keyed by chat id.
Each handler body that runs under `user_data_lock` becomes one pure function
on the store, which models the code's check-then-mutate atomicity. -/
abbrev Store := List (ℤ × Session)

/-- Dict lookup: `user_data.get(chat_id)`. -/
def Store.lookup (st : Store) (k : ℤ) : Option Session :=
  (st.find? (fun kv => decide (kv.1 = k))).map Prod.snd

/-- Dict deletion: `user_data.pop(chat_id)` / `del user_data[chat_id]`. -/
def Store.erase (st : Store) (k : ℤ) : Store :=
  st.filter (fun kv => !(decide (kv.1 = k)))

/-- Dict assignment: `user_data[chat_id] = {...}` (observably, as far as
lookups go: the entry for `k` is replaced). -/
def Store.set (st : Store) (k : ℤ) (s : Session) : Store :=
  Store.erase st k ++ [(k, s)]

inductive MediaSignal
  /-- "I'm currently busy with your previous request. Please wait." -/
  | busy
  | accepted
deriving DecidableEq

/-- The locked region of handle_media (lines 253-258): reject when an
existing session's state is 'downloading' or 'processing', otherwise install
a fresh 'downloading' session. -/
def handleMedia (st : Store) (chat_id : ℤ) (now : ℚ) : Store × MediaSignal :=
  match st.lookup chat_id with
  | some s =>
      if s.state = .downloading ∨ s.state = .processing then (st, .busy)
      else (st.set chat_id ⟨.downloading, now, none, none, none⟩, .accepted)
  | none => (st.set chat_id ⟨.downloading, now, none, none, none⟩, .accepted)

inductive FadeSignal
  /-- "This action has expired." -/
  | expired
  /-- The session handed to the render/dispatch pipeline. -/
  | dispatched (s : Session)
deriving DecidableEq

/-- The locked region of handle_fade_choice (lines 320-329): if there is no
session or it is not awaiting the fade choice, answer expired; otherwise mark
it 'processing' and pop it from the store in the same step. -/
def handleFadeChoice (st : Store) (chat_id : ℤ) : Store × FadeSignal :=
  match st.lookup chat_id with
  | none => (st, .expired)
  | some s =>
      if s.state = .awaitingFadeChoice then
        (st.erase chat_id, .dispatched { s with state := .processing })
      else (st, .expired)

/-- Line 240: `now - data.get('timestamp', now) > SESSION_TIMEOUT`. -/
def isStale (now : ℚ) (s : Session) : Bool :=
  decide (now - s.timestamp > SESSION_TIMEOUT)

/-- The locked region of one sweep of cleanup_stale_sessions (lines 237-246):
pop every stale session and pass its media path to cleanup_files.  Returns the
new store and the list of deleted file paths (cleanup_files skips `None`). -/
def sweepStale (now : ℚ) (st : Store) : Store × List String :=
  (st.filter (fun kv => !(isStale now kv.2)),
   (st.filter (fun kv => isStale now kv.2)).filterMap (fun kv => kv.2.mediaPath))

/- Render pipeline: isolated_video_processing_task (lines 377-478), with the
outcomes of the external commands (ffprobe/PIL, PIL caption rendering, the
ffmpeg render, the ffmpeg frame extraction, the worker upload) supplied as an
explicit environment. -/

/-- The files the pipeline touches, identified by role (their paths are
per-chat constants: media download, caption_<id>.png, output_<id>.mp4,
frame_<id>.jpg). -/
inductive PFile
  | media
  | caption
  | output
  | frame
deriving DecidableEq

/-- Outcome of `subprocess.run(command, ..., timeout=300)` at line 451. -/
inductive RenderOutcome
  /-- The process exited with `code`; `stderr` is its error stream. -/
  | completed (code : ℤ) (stderr : String)
  /-- `subprocess.TimeoutExpired` was raised. -/
  | timedOut
deriving DecidableEq

/-- Outcomes of the pipeline's external effects. -/
structure PipelineEnv where
  /-- get_media_dimensions result: `none` models `(None, None, None)`. -/
  probe : Option (ℤ × ℤ × ℚ)
  /-- whether create_caption_image returns (rather than raising). -/
  captionOk : Bool
  /-- `rect_height` returned by create_caption_image. -/
  captionHeight : ℚ
  renderOutcome : RenderOutcome
  /-- whether ffmpeg left a (possibly partial) file at output_filepath. -/
  renderWrote : Bool
  /-- whether extract_frame_from_video returned a path. -/
  frameOk : Bool
  /-- whether a (possibly partial) frame file exists when extraction failed. -/
  frameWrote : Bool
  /-- whether upload_and_process returned True. -/
  uploadOk : Bool
deriving DecidableEq

/-- Line 475 (generic `except Exception` handler). -/
def serverErrorMsg : String := "An unexpected server error occurred. Please try again."

/-- Python `s[-1000:]`. -/
def pyLast1000 (s : String) : String := s.drop (s.length - 1000)

/-- Line 470: `(e.stderr or "No stderr output.")[-1000:]`. -/
def pySnippet (stderr : String) : String :=
  pyLast1000 (if stderr = "" then "No stderr output." else stderr)

/-- Line 472: the message sent on a CalledProcessError from ffmpeg. -/
def renderFailMsg (stderr : String) : String :=
  "An error occurred during video creation:\n`" ++ pySnippet stderr ++ "`"

def successMsg : String := "✅ Success! Your video will be sent shortly."

def uploadFailMsg : String := "⚠️ Upload to our servers failed. Please try again."

def frameFailMsg : String := "⚠️ Could not prepare the video for final processing."

structure PipelineResult where
  /-- the last status message sent for this job. -/
  message : String
  /-- the final contents of `files_to_clean`. -/
  filesToClean : List PFile
  /-- the files existing on disk when the `finally` block runs. -/
  existing : List PFile
  /-- the files still existing after `cleanup_files(files_to_clean)`. -/
  leftover : List PFile
  /-- whether upload_and_process was invoked. -/
  uploadAttempted : Bool
  /-- the composition plan, when the geometry lines 401-404 were reached. -/
  plan : Option CompositionPlan
  /-- whether line 396 raised `ValueError("Could not get media dimensions.")`. -/
  dimErrorRaised : Bool
deriving DecidableEq

/-- Close a pipeline run: the `finally` block deletes every existing file
that is in `files_to_clean` (cleanup_files, lines 61-68). -/
def mkResult (msg : String) (clean existing : List PFile) (upl : Bool)
    (plan : Option CompositionPlan) (dimErr : Bool) : PipelineResult :=
  ⟨msg, clean, existing, existing.filter (fun f => !(clean.contains f)), upl,
   plan, dimErr⟩

/-- Line 395: `not all([media_w, media_h, final_duration])` — `None` and `0`
are falsy. -/
def pyAllDims : Option (ℤ × ℤ × ℚ) → Bool
  | none => false
  | some (w, h, d) => decide (w ≠ 0) && decide (h ≠ 0) && decide (d ≠ 0)

/-- The control flow of isolated_video_processing_task (lines 389-478) as a
function of the external outcomes.  `files_to_clean` starts as `[media_path]`
(line 391); the caption image is appended at line 399, the output file only
after a zero ffmpeg exit (line 456), the frame only when extraction returned a
path (line 461). -/
def runPipeline (env : PipelineEnv) : PipelineResult :=
  match env.probe with
  | none => mkResult serverErrorMsg [.media] [.media] false none true
  | some (w, hgt, d) =>
      if w = 0 ∨ hgt = 0 ∨ d = 0 then
        mkResult serverErrorMsg [.media] [.media] false none true
      else if env.captionOk = false then
        mkResult serverErrorMsg [.media] [.media] false none false
      else
        let plan := computePlan w hgt env.captionHeight
        match env.renderOutcome with
        | .timedOut =>
            mkResult serverErrorMsg [.media, .caption]
              ([.media, .caption] ++ if env.renderWrote then [.output] else [])
              false (some plan) false
        | .completed code stderr =>
            if code = 0 then
              if env.frameOk then
                mkResult (if env.uploadOk then successMsg else uploadFailMsg)
                  [.media, .caption, .output, .frame]
                  ([.media, .caption] ++
                    (if env.renderWrote then [.output] else []) ++ [.frame])
                  true (some plan) false
              else
                mkResult frameFailMsg [.media, .caption, .output]
                  ([.media, .caption] ++
                    (if env.renderWrote then [.output] else []) ++
                    (if env.frameWrote then [.frame] else []))
                  false (some plan) false
            else
              mkResult (renderFailMsg stderr) [.media, .caption]
                ([.media, .caption] ++ if env.renderWrote then [.output] else [])
                false (some plan) false

/-- Whether the run reaches the ffmpeg invocation. -/
def reachedRender (env : PipelineEnv) : Bool :=
  pyAllDims env.probe && env.captionOk

/-- Whether the ffmpeg invocation failed (non-zero exit or timeout). -/
def renderFailedB (env : PipelineEnv) : Bool :=
  match env.renderOutcome with
  | .completed code _ => decide (code ≠ 0)
  | .timedOut => true

/-- The files the pipeline can leave behind: a partially written output video
when the render fails or times out, and a partially written frame when frame
extraction fails; nothing else. -/
def expectedLeftover (env : PipelineEnv) : List PFile :=
  if reachedRender env then
    if renderFailedB env then (if env.renderWrote then [.output] else [])
    else if env.frameOk then []
    else (if env.frameWrote then [.frame] else [])
  else []

/- Concrete fixtures used to evaluate the definitions on closed inputs. -/

/-- A run whose ffmpeg invocation exits 1 after partially writing output. -/
def envRenderFail : PipelineEnv :=
  ⟨some (600, 800, 8), true, 200, .completed 1 "boom", true, false, false, false⟩

/-- A run whose ffmpeg invocation hits the 300s timeout. -/
def envTimedOut : PipelineEnv :=
  ⟨some (600, 800, 8), true, 200, .timedOut, true, false, false, false⟩

/-- A run whose probe yields `(None, None, None)`. -/
def envProbeFail : PipelineEnv :=
  ⟨none, true, 200, .completed 0 "", true, true, true, true⟩

/-- A fully successful run. -/
def envAllOk : PipelineEnv :=
  ⟨some (600, 800, 8), true, 200, .completed 0 "", true, true, true, true⟩

/-- A session waiting for the fade choice. -/
def demoSession : Session :=
  ⟨.awaitingFadeChoice, 0, some "downloads/1_f.mp4", some .video, some "hi"⟩

def demoStore : Store := [(1, demoSession)]

/-- A session waiting for its caption. -/
def captionSession : Session :=
  ⟨.awaitingCaption, 0, some "downloads/1_g.jpg", some .image, none⟩

def captionStore : Store := [(1, captionSession)]

/-- A busy (downloading) session. -/
def busySession : Session := ⟨.downloading, 0, none, none, none⟩

/- Store lemmas. -/

theorem lookup_erase_self (st : Store) (k : ℤ) :
    (Store.erase st k).lookup k = none := by
  induction st with
  | nil => rfl
  | cons kv t ih =>
      by_cases h : kv.1 = k
      · have : Store.erase (kv :: t) k = Store.erase t k := by
          simp [Store.erase, List.filter_cons, h]
        rw [this]; exact ih
      · have : Store.erase (kv :: t) k = kv :: Store.erase t k := by
          simp [Store.erase, List.filter_cons, h]
        rw [this, Store.lookup, List.find?_cons_of_neg, ← Store.lookup]
        · exact ih
        · simp [h]

theorem lookup_append_of_left_none (st1 st2 : Store) (k : ℤ)
    (h : Store.lookup st1 k = none) :
    Store.lookup (st1 ++ st2) k = Store.lookup st2 k := by
  induction st1 with
  | nil => rfl
  | cons kv t ih =>
      by_cases hk : kv.1 = k
      · rw [Store.lookup, List.find?_cons_of_pos] at h
        · simp at h
        · simp [hk]
      · rw [Store.lookup, List.find?_cons_of_neg, ← Store.lookup] at h
        · rw [List.cons_append, Store.lookup, List.find?_cons_of_neg,
            ← Store.lookup]
          · exact ih h
          · simp [hk]
        · simp [hk]

theorem lookup_set_self (st : Store) (k : ℤ) (s : Session) :
    (Store.set st k s).lookup k = some s := by
  rw [Store.set, lookup_append_of_left_none _ _ _ (lookup_erase_self st k)]
  simp [Store.lookup, List.find?]

theorem lookup_none_of_not_mem_keys (st : Store) (k : ℤ)
    (h : k ∉ st.map Prod.fst) : Store.lookup st k = none := by
  induction st with
  | nil => rfl
  | cons kv t ih =>
      simp only [List.map_cons, List.mem_cons] at h
      push_neg at h
      simp [Store.lookup, List.find?, Ne.symm h.1]
      simpa [Store.lookup] using ih h.2

theorem lookup_filter_none_of_not_mem_keys (st : Store) (k : ℤ)
    (p : ℤ × Session → Bool) (h : k ∉ st.map Prod.fst) :
    Store.lookup (st.filter p) k = none := by
  apply lookup_none_of_not_mem_keys
  intro hmem
  apply h
  rcases List.mem_map.mp hmem with ⟨kv, hkv, hfst⟩
  exact List.mem_map.mpr ⟨kv, (List.mem_filter.mp hkv).1, hfst⟩

theorem sweep_lookup_none (now : ℚ) (st : Store) (k : ℤ) (s : Session)
    (hnd : (st.map Prod.fst).Nodup) (hl : st.lookup k = some s)
    (hs : isStale now s = true) :
    Store.lookup (sweepStale now st).1 k = none := by
  induction st with
  | nil => simp [Store.lookup] at hl
  | cons kv t ih =>
      simp only [List.map_cons, List.nodup_cons] at hnd
      by_cases hk : kv.1 = k
      · have hsv : kv.2 = s := by
          simp [Store.lookup, List.find?, hk] at hl
          exact hl
        have hdrop : isStale now kv.2 = true := hsv ▸ hs
        simp only [sweepStale, List.filter_cons, hdrop]
        simp only [Bool.not_true, cond_false]
        exact lookup_filter_none_of_not_mem_keys t k _ (hk ▸ hnd.1)
      · have hl' : Store.lookup t k = some s := by
          simpa [Store.lookup, List.find?, hk] using hl
        have := ih hnd.2 hl'
        simp only [sweepStale] at this ⊢
        by_cases hkeep : isStale now kv.2
        · simpa [List.filter_cons, hkeep] using this
        · simp only [List.filter_cons, hkeep, Bool.not_false, cond_true]
          simpa [Store.lookup, List.find?, hk] using this

theorem sweep_deletes_media (now : ℚ) (st : Store) (k : ℤ) (s : Session)
    (p : String) (hl : st.lookup k = some s) (hs : isStale now s = true)
    (hp : s.mediaPath = some p) : p ∈ (sweepStale now st).2 := by
  have hfind := hl
  simp only [Store.lookup, Option.map_eq_some'] at hfind
  rcases hfind with ⟨kv, hkv, hsnd⟩
  have hmem : kv ∈ st := List.mem_of_find?_eq_some hkv
  refine List.mem_filterMap.mpr ⟨kv, List.mem_filter.mpr ⟨hmem, ?_⟩, ?_⟩
  · rw [hsnd]; exact hs
  · rw [hsnd]; exact hp


/- Claim theorems. -/

/-- C1 counterexample: the claim states `scaledMediaHeight = round(mediaHeight
* scaleRatio)`, but line 402 uses `int()` (truncation).  For 16x1 media the
exact value is 67.5: the code truncates to 67 while rounding gives 68. -/
theorem c1_round_counterexample :
    (computePlan 16 1 0).scaledMediaH ≠
      round ((1 : ℚ) * (computePlan 16 1 0).scaleFactor) := by
  norm_num [computePlan, pyInt, COMP_WIDTH, round_eq]

/-- C1 (amended): for positive media dimensions the planner computes
`scaleRatio = 1080 / mediaWidth`, `scaledMediaHeight = trunc(mediaHeight *
scaleRatio)` (Python `int()`, i.e. the floor for these nonnegative values),
and `mediaYPosition = (1920 - scaledMediaHeight)/2 + 100`; for 600x800 media
this yields scaleRatio = 1.8, scaledMediaHeight = 1440, mediaYPosition = 340. -/
theorem c1_planner_formulas (w h : ℤ) (ch : ℚ) (hw : 0 < w) (hh : 0 < h) :
    (computePlan w h ch).scaleFactor = (1080 : ℚ) / (w : ℚ) ∧
    (computePlan w h ch).scaledMediaH = ⌊(h : ℚ) * ((1080 : ℚ) / (w : ℚ))⌋ ∧
    (computePlan w h ch).mediaYPos
      = ((1920 : ℚ) - ((computePlan w h ch).scaledMediaH : ℚ)) / 2 + 100 ∧
    (computePlan 600 800 ch).scaleFactor = 9 / 5 ∧
    (computePlan 600 800 ch).scaledMediaH = 1440 ∧
    (computePlan 600 800 ch).mediaYPos = 340 := by
  have hw' : (0 : ℚ) < (w : ℚ) := by exact_mod_cast hw
  have hh' : (0 : ℚ) < (h : ℚ) := by exact_mod_cast hh
  have hnn : (0 : ℚ) ≤ (h : ℚ) * ((1080 : ℚ) / (w : ℚ)) :=
    le_of_lt (mul_pos hh' (div_pos (by norm_num) hw'))
  refine ⟨?_, ?_, ?_, ?_, ?_, ?_⟩
  · simp [computePlan, COMP_WIDTH]
  · simp only [computePlan, COMP_WIDTH]
    norm_num [pyInt, hnn]
  · simp only [computePlan, COMP_HEIGHT, MEDIA_Y_OFFSET]
    push_cast
    ring
  · norm_num [computePlan, COMP_WIDTH]
  · norm_num [computePlan, pyInt, COMP_WIDTH]
  · norm_num [computePlan, pyInt, COMP_WIDTH, COMP_HEIGHT, MEDIA_Y_OFFSET]

/-- C1 witness: the amended theorem evaluated at the 600x800 example. -/
theorem c1_planner_formulas_witness :
    (0 : ℤ) < 600 ∧ (0 : ℤ) < 800 ∧
    (computePlan 600 800 200).scaleFactor = 9 / 5 ∧
    (computePlan 600 800 200).scaledMediaH = 1440 ∧
    (computePlan 600 800 200).mediaYPos = 340 := by
  have h := c1_planner_formulas 600 800 200 (by decide) (by decide)
  exact ⟨by decide, by decide, h.2.2.2.1, h.2.2.2.2.1, h.2.2.2.2.2⟩

/-- C2: a fade-choice signal for a session in AwaitingFadeChoice dispatches
the session and removes it from the store in the same step; a second signal
for the same key is answered "expired" and leaves the store unchanged, as does
any signal for a key with no stored session. -/
theorem c2_fade_choice_once (st : Store) (k : ℤ) (s : Session)
    (hl : st.lookup k = some s) (hs : s.state = .awaitingFadeChoice) :
    (handleFadeChoice st k).2 = .dispatched { s with state := .processing } ∧
    ((handleFadeChoice st k).1).lookup k = none ∧
    handleFadeChoice (handleFadeChoice st k).1 k
      = ((handleFadeChoice st k).1, .expired) ∧
    (∀ st2 : Store, st2.lookup k = none → handleFadeChoice st2 k = (st2, .expired)) := by
  have h1 : handleFadeChoice st k
      = (st.erase k, .dispatched { s with state := .processing }) := by
    simp [handleFadeChoice, hl, hs]
  have h2 : (Store.erase st k).lookup k = none := lookup_erase_self st k
  refine ⟨by rw [h1], by rw [h1]; exact h2, ?_, ?_⟩
  · rw [h1]
    simp [handleFadeChoice, h2]
  · intro st2 hnone
    simp [handleFadeChoice, hnone]

/-- C2 witness: the theorem evaluated on a one-session store. -/
theorem c2_fade_choice_once_witness :
    demoStore.lookup 1 = some demoSession ∧
    (handleFadeChoice demoStore 1).2
      = .dispatched { demoSession with state := .processing } ∧
    ((handleFadeChoice demoStore 1).1).lookup 1 = none := by
  have h := c2_fade_choice_once demoStore 1 demoSession (by decide) (by decide)
  exact ⟨by decide, h.1, h.2.1⟩

/-- C4 counterexample: the claim says a media event for a key whose session is
in any non-idle state (including awaiting caption) is rejected busy with the
session unchanged; but handle_media only checks for 'downloading' and
'processing' (line 254), so a session awaiting its caption is overwritten by a
fresh downloading session. -/
theorem c4_busy_counterexample :
    (handleMedia captionStore 1 5).2 = .accepted ∧
    (handleMedia captionStore 1 5).1.lookup 1 ≠ some captionSession := by
  decide

/-- C4 (amended): a second media event is rejected busy, with the store
unchanged, exactly when the stored session is in 'downloading' or
'processing'; a session awaiting its caption or fade choice is replaced by a
fresh 'downloading' session, and a key with no session gets a fresh
'downloading' session. -/
theorem c4_busy_guard (st : Store) (k : ℤ) (now : ℚ) :
    (∀ s, st.lookup k = some s →
        (s.state = .downloading ∨ s.state = .processing) →
        handleMedia st k now = (st, .busy)) ∧
    (∀ s, st.lookup k = some s →
        (s.state = .awaitingCaption ∨ s.state = .awaitingFadeChoice) →
        (handleMedia st k now).2 = .accepted ∧
        (handleMedia st k now).1.lookup k
          = some ⟨.downloading, now, none, none, none⟩) ∧
    (st.lookup k = none →
        (handleMedia st k now).2 = .accepted ∧
        (handleMedia st k now).1.lookup k
          = some ⟨.downloading, now, none, none, none⟩) := by
  refine ⟨?_, ?_, ?_⟩
  · intro s hl hst
    simp [handleMedia, hl, hst]
  · intro s hl hst
    rcases hst with h | h <;>
      simp [handleMedia, hl, h, lookup_set_self]
  · intro hnone
    simp [handleMedia, hnone, lookup_set_self]

/-- C4 witness: the amended theorem evaluated on a busy store and on a store
holding a session that awaits its caption. -/
theorem c4_busy_guard_witness :
    handleMedia [(2, busySession)] 2 5 = ([(2, busySession)], .busy) ∧
    (handleMedia captionStore 1 5).2 = .accepted := by
  have h1 := (c4_busy_guard [(2, busySession)] 2 5).1 busySession (by decide)
    (Or.inl (by decide))
  have h2 := (c4_busy_guard captionStore 1 5).2.1 captionSession (by decide)
    (Or.inl (by decide))
  exact ⟨h1, h2.1⟩

/-- C5: `captionYPosition = mediaYPosition - captionBandHeight + 1` for every
plan (line 404), and the caption overlay stage of the filter graph — the one
formula's consumer — is the same stage whether or not fade is requested. -/
theorem c5_caption_position (w h : ℤ) (ch : ℚ) (smh : ℤ) (dur y cy : ℚ) :
    (computePlan w h ch).captionYPos = (computePlan w h ch).mediaYPos - ch + 1 ∧
    (filterParts true smh dur y cy).getLast?
      = (filterParts false smh dur y cy).getLast? := by
  exact ⟨rfl, rfl⟩

/-- C6: with fade requested, the graph contains a black color layer of size
`COMP_WIDTH x (scaledMediaHeight + 1)` and duration equal to the render
duration, converted to rgba and faded out from time 0 over `FADE_IN_DURATION
= 6`, overlaid at the origin onto the scaled media; the only stage containing
a fade filter is the fade layer, and no stage consuming the media input
`[1:v]` has a fade filter. -/
theorem c6_fade_black_cover (mt : MediaType) (smh : ℤ) (dur y cy : ℚ) :
    FADE_IN_DURATION = 6 ∧
    (⟨[], [.color "black" COMP_WIDTH (smh + 1) dur, .format "rgba",
           .fade "out" 0 FADE_IN_DURATION], "fade_layer"⟩ : Stage)
      ∈ (buildCommand mt true smh dur y cy).graph ∧
    (⟨["scaled_media", "fade_layer"], [.overlayXY 0 0], "media_with_fade"⟩ : Stage)
      ∈ (buildCommand mt true smh dur y cy).graph ∧
    ((buildCommand mt true smh dur y cy).graph.filter
        (fun s => s.chain.any isFadeOp)).map Stage.output = ["fade_layer"] ∧
    ((buildCommand mt true smh dur y cy).graph.filter
        (fun s => s.inputs.contains "1:v")).all
        (fun s => !(s.chain.any isFadeOp)) = true := by
  cases mt <;>
    refine ⟨rfl, ?_, ?_, ?_, ?_⟩ <;>
    simp [buildCommand, fullFilterGraph, filterParts, mediaStages, finalStages,
      scaledMediaStage, fadeLayerStage, fadeOverlayStage, soundStage,
      mediaLayerLabel, isFadeOp]

/-- C8: the fade-on and fade-off invocations have identical input lists (in
particular the background color source, their first input) and identical
output maps; the caption overlay stage (the last filter stage) is identical;
and both graphs decompose as the media-producing stages followed by the same
two final stages applied to the media chain's output label. -/
theorem c8_fade_only_media_differs (mt : MediaType) (smh : ℤ) (dur y cy : ℚ) :
    (buildCommand mt true smh dur y cy).inputs
      = (buildCommand mt false smh dur y cy).inputs ∧
    (buildInputs mt dur).head?
      = some (.lavfiColor "black" 1080 1920 dur) ∧
    (buildCommand mt true smh dur y cy).maps
      = (buildCommand mt false smh dur y cy).maps ∧
    (filterParts true smh dur y cy).getLast?
      = (filterParts false smh dur y cy).getLast? ∧
    (∀ b : Bool, filterParts b smh dur y cy
      = mediaStages b smh dur ++ finalStages (mediaLayerLabel b) y cy) ∧
    (∀ b : Bool, (mediaStages b smh dur).getLast?.map Stage.output
      = some (mediaLayerLabel b)) := by
  refine ⟨rfl, ?_, rfl, rfl, fun b => rfl, fun b => ?_⟩
  · cases mt <;> rfl
  · cases b <;> rfl

/-- C3 counterexample: the claim says every exit path deletes every file the
pipeline downloaded, generated or partially rendered; but on a failed render
that left a partial output file, the output path was never appended to
`files_to_clean` (that happens only after a zero exit, line 456), so the
partial output survives the `finally` cleanup. -/
theorem c3_cleanup_counterexample :
    (runPipeline envRenderFail).leftover = [.output] ∧
    (runPipeline envRenderFail).leftover ≠ [] := by
  decide

/-- C3 (amended): on every exit path the `finally` block deletes every file in
`files_to_clean` — the downloaded media, the caption image, and (after a
successful render) the output video and extracted frame; the only files that
can survive are a partially written output video when the render fails or
times out, and a partially written frame when frame extraction fails. -/
theorem c3_cleanup_guarantee (env : PipelineEnv) :
    (runPipeline env).leftover = expectedLeftover env := by
  rcases env with ⟨probe, cok, ch, ro, rwrote, fok, fwrote, uok⟩
  rcases probe with _ | ⟨w, hgt, d⟩
  · rfl
  · by_cases hw : w = 0
    · simp [runPipeline, expectedLeftover, reachedRender, pyAllDims, mkResult, hw]
    · by_cases hh : hgt = 0
      · simp [runPipeline, expectedLeftover, reachedRender, pyAllDims, mkResult,
          hw, hh]
      · by_cases hd : d = 0
        · simp [runPipeline, expectedLeftover, reachedRender, pyAllDims,
            mkResult, hw, hh, hd]
        · cases cok
          · simp [runPipeline, expectedLeftover, reachedRender, pyAllDims,
              mkResult, hw, hh, hd]
          · rcases ro with ⟨code, stderr⟩ | _
            · by_cases hc : code = 0
              · cases fok
                · cases fwrote <;> cases rwrote <;>
                    simp [runPipeline, expectedLeftover, reachedRender,
                      renderFailedB, pyAllDims, mkResult, hw, hh, hd, hc]
                · cases rwrote <;> cases uok <;>
                    simp [runPipeline, expectedLeftover, reachedRender,
                      renderFailedB, pyAllDims, mkResult, hw, hh, hd, hc]
              · cases rwrote <;>
                  simp [runPipeline, expectedLeftover, reachedRender,
                    renderFailedB, pyAllDims, mkResult, hw, hh, hd, hc]
            · cases rwrote <;>
                simp [runPipeline, expectedLeftover, reachedRender,
                  renderFailedB, pyAllDims, mkResult, hw, hh, hd]

/-- C7: whenever the ffmpeg invocation is reached, a non-zero exit produces
the render-error message built from the last 1000 characters of its stderr
(lines 452-453, 469-472) and no upload is attempted, and a timeout produces
the generic failure message with no upload attempted; for a non-empty stderr
the surfaced message is literally the prefix text followed by the last 1000
characters of the error stream; the hard timeout constant is 300s. -/
theorem c7_render_errors :
    (∀ env : PipelineEnv, ∀ code : ℤ, ∀ stderr : String,
       reachedRender env = true →
       env.renderOutcome = .completed code stderr → code ≠ 0 →
       (runPipeline env).message = renderFailMsg stderr ∧
       (runPipeline env).uploadAttempted = false) ∧
    (∀ env : PipelineEnv, reachedRender env = true →
       env.renderOutcome = .timedOut →
       (runPipeline env).message = serverErrorMsg ∧
       (runPipeline env).uploadAttempted = false) ∧
    (∀ stderr : String, stderr ≠ "" →
       renderFailMsg stderr
         = "An error occurred during video creation:\n`"
             ++ pyLast1000 stderr ++ "`") ∧
    RENDER_TIMEOUT = 300 := by
  refine ⟨?_, ?_, ?_, rfl⟩
  · intro env code stderr hr hro hc
    rcases env with ⟨probe, cok, ch, ro, rwrote, fok, fwrote, uok⟩
    rcases probe with _ | ⟨w, hgt, d⟩
    · simp [reachedRender, pyAllDims] at hr
    · simp only [reachedRender, pyAllDims, Bool.and_eq_true,
        decide_eq_true_eq] at hr
      obtain ⟨⟨⟨hw, hh⟩, hd⟩, hcok⟩ := hr
      simp only at hro
      subst hro
      simp [runPipeline, mkResult, hw, hh, hd, hcok, hc]
  · intro env hr hro
    rcases env with ⟨probe, cok, ch, ro, rwrote, fok, fwrote, uok⟩
    rcases probe with _ | ⟨w, hgt, d⟩
    · simp [reachedRender, pyAllDims] at hr
    · simp only [reachedRender, pyAllDims, Bool.and_eq_true,
        decide_eq_true_eq] at hr
      obtain ⟨⟨⟨hw, hh⟩, hd⟩, hcok⟩ := hr
      simp only at hro
      subst hro
      simp [runPipeline, mkResult, hw, hh, hd, hcok]
  · intro stderr h
    simp [renderFailMsg, pySnippet, h]

/-- C7 witness: the theorem evaluated on a run whose render exits 1 with
stderr "boom" and on a run whose render times out. -/
theorem c7_render_errors_witness :
    (runPipeline envRenderFail).message = renderFailMsg "boom" ∧
    (runPipeline envRenderFail).uploadAttempted = false ∧
    (runPipeline envTimedOut).message = serverErrorMsg ∧
    (runPipeline envTimedOut).uploadAttempted = false := by
  have h1 := c7_render_errors.1 envRenderFail 1 "boom" (by decide) rfl (by decide)
  have h2 := c7_render_errors.2.1 envTimedOut (by decide) rfl
  exact ⟨h1.1, h1.2, h2.1, h2.2⟩

/-- C9: a session whose timestamp is more than SESSION_TIMEOUT = 1800s old is
removed by the sweep, its media file is in the deleted list, and a fresh
media event for the same key afterwards is accepted and installs a new
'downloading' session; the sweep runs every CLEANUP_INTERVAL = 300s. -/
theorem c9_stale_eviction (st : Store) (k : ℤ) (s : Session) (now now2 : ℚ)
    (hnd : (st.map Prod.fst).Nodup) (hl : st.lookup k = some s)
    (hstale : now - s.timestamp > SESSION_TIMEOUT) :
    Store.lookup (sweepStale now st).1 k = none ∧
    (∀ p, s.mediaPath = some p → p ∈ (sweepStale now st).2) ∧
    (handleMedia (sweepStale now st).1 k now2).2 = .accepted ∧
    (handleMedia (sweepStale now st).1 k now2).1.lookup k
      = some ⟨.downloading, now2, none, none, none⟩ ∧
    SESSION_TIMEOUT = 1800 ∧ CLEANUP_INTERVAL = 300 := by
  have hb : isStale now s = true := by simp [isStale, hstale]
  have h1 := sweep_lookup_none now st k s hnd hl hb
  refine ⟨h1, ?_, ?_, ?_, rfl, rfl⟩
  · intro p hp
    exact sweep_deletes_media now st k s p hl hb hp
  · simp [handleMedia, h1]
  · simp [handleMedia, h1, lookup_set_self]

/-- C9 witness: the theorem evaluated on a one-session store whose session is
2000s old against an 1800s timeout. -/
theorem c9_stale_eviction_witness :
    Store.lookup (sweepStale 2000 captionStore).1 1 = none ∧
    "downloads/1_g.jpg" ∈ (sweepStale 2000 captionStore).2 ∧
    (handleMedia (sweepStale 2000 captionStore).1 1 2100).2 = .accepted := by
  have h := c9_stale_eviction captionStore 1 captionSession 2000 2100
    (by decide) (by decide) (by norm_num [SESSION_TIMEOUT, captionSession])
  exact ⟨h.1, h.2.1 _ rfl, h.2.2.1⟩

/-- C10: a probe result with a missing or zero width, height or duration makes
line 396 raise the dimension error before the geometry of lines 401-404 is
computed, and whenever the geometry is computed the probed width, height and
duration are all non-zero — so the division 1080 / mediaWidth never runs with
a zero divisor. -/
theorem c10_dimension_guard :
    (∀ env : PipelineEnv, pyAllDims env.probe = false →
       (runPipeline env).dimErrorRaised = true ∧
       (runPipeline env).plan = none ∧
       (runPipeline env).message = serverErrorMsg) ∧
    (∀ env : PipelineEnv, ∀ w hgt : ℤ, ∀ d : ℚ,
       env.probe = some (w, hgt, d) →
       ((runPipeline env).plan).isSome = true →
       w ≠ 0 ∧ hgt ≠ 0 ∧ d ≠ 0) := by
  constructor
  · intro env hfalse
    rcases env with ⟨probe, cok, ch, ro, rwrote, fok, fwrote, uok⟩
    rcases probe with _ | ⟨w, hgt, d⟩
    · exact ⟨rfl, rfl, rfl⟩
    · simp only [pyAllDims, Bool.and_eq_false_iff, decide_eq_false_iff_not,
        not_not] at hfalse
      have hz : w = 0 ∨ hgt = 0 ∨ d = 0 := by tauto
      simp [runPipeline, mkResult, hz]
  · intro env w hgt d hp hplan
    rcases env with ⟨probe, cok, ch, ro, rwrote, fok, fwrote, uok⟩
    simp only at hp
    subst hp
    by_cases hw : w = 0
    · simp [runPipeline, mkResult, hw] at hplan
    · by_cases hh : hgt = 0
      · simp [runPipeline, mkResult, hh] at hplan
      · by_cases hd : d = 0
        · simp [runPipeline, mkResult, hd] at hplan
        · exact ⟨hw, hh, hd⟩

/-- C10 witness: the theorem evaluated on a failed probe and on a successful
600x800 run. -/
theorem c10_dimension_guard_witness :
    (runPipeline envProbeFail).dimErrorRaised = true ∧
    (runPipeline envProbeFail).plan = none ∧
    ((600 : ℤ) ≠ 0 ∧ (800 : ℤ) ≠ 0 ∧ (8 : ℚ) ≠ 0) := by
  have h1 := c10_dimension_guard.1 envProbeFail (by decide)
  have h2 := c10_dimension_guard.2 envAllOk 600 800 8 rfl (by decide)
  exact ⟨h1.1, h1.2.1, h2⟩
